import Mathlib

/-!
Verification of the observability subsystem of the chatbot_todo repository
(src/backend/src/observability/): outcome taxonomy, logging service,
query service, baseline/drift service and validation service, shallowly
embedded in Lean. UUIDs are modelled as naturals, timestamps as naturals
(ISO-8601 strings compare chronologically, so ordering is preserved),
Python floats as rationals, and SQLite tables as Lean lists in insertion
order. Database I/O failures (caught by the services and re-raised as
StorageError) are modelled by an explicit per-call failure flag.
-/

namespace Obs

/-- Python str.startswith on code points: `pre` is a prefix of `s`. -/
def pyStartsWith (s pre : String) : Bool :=
  pre.data.isPrefixOf s.data

/-- Substring occurrence on code points (SQL LIKE with a pattern
surrounded by percent wildcards; categories and fixture inputs in the
repository contain no wildcard characters). -/
def isSubstr (needle : List Char) : List Char → Bool
  | [] => needle.isEmpty
  | c :: t => needle.isPrefixOf (c :: t) || isSubstr needle t

/-! ## categories.py -/

/-- The 13 valid CATEGORY:SUBCATEGORY strings
(categories.py VALID_OUTCOME_CATEGORIES). -/
def VALID_OUTCOME_CATEGORIES : List String :=
  [ "SUCCESS:TASK_COMPLETED",
    "SUCCESS:RESPONSE_GIVEN",
    "SUCCESS:CLARIFICATION_ANSWERED",
    "ERROR:USER_INPUT",
    "ERROR:INTENT_CLASSIFICATION",
    "ERROR:TOOL_INVOCATION",
    "ERROR:RESPONSE_GENERATION",
    "REFUSAL:OUT_OF_SCOPE",
    "REFUSAL:MISSING_PERMISSION",
    "REFUSAL:RATE_LIMITED",
    "AMBIGUITY:UNCLEAR_INTENT",
    "AMBIGUITY:MULTIPLE_MATCHES",
    "AMBIGUITY:MISSING_CONTEXT" ]

/-- categories.py validate_outcome_category: set membership. -/
def validate_outcome_category (category : String) : Bool :=
  VALID_OUTCOME_CATEGORIES.contains category

/-- The boolean facts accepted by assign_outcome_category
(all keyword arguments, with their Python defaults).
tool_succeeded is Python bool-or-None, modelled as Option Bool. -/
structure DecisionFacts where
  tool_used : Bool := false
  tool_succeeded : Option Bool := none
  is_clarification : Bool := false
  is_out_of_scope : Bool := false
  is_ambiguous : Bool := false
  is_missing_permission : Bool := false
  is_rate_limited : Bool := false
  has_multiple_matches : Bool := false
  has_missing_context : Bool := false
  intent_error : Bool := false
  user_input_error : Bool := false
  response_error : Bool := false
deriving DecidableEq

/-- categories.py assign_outcome_category: the nested-conditional chain,
in source order. Python `tool_succeeded is False` / `is True` are the
Option Bool equality tests against some false / some true. -/
def assign_outcome_category (f : DecisionFacts) : String :=
  if f.is_out_of_scope then "REFUSAL:OUT_OF_SCOPE"
  else if f.is_missing_permission then "REFUSAL:MISSING_PERMISSION"
  else if f.is_rate_limited then "REFUSAL:RATE_LIMITED"
  else if f.is_ambiguous then "AMBIGUITY:UNCLEAR_INTENT"
  else if f.has_multiple_matches then "AMBIGUITY:MULTIPLE_MATCHES"
  else if f.has_missing_context then "AMBIGUITY:MISSING_CONTEXT"
  else if f.user_input_error then "ERROR:USER_INPUT"
  else if f.intent_error then "ERROR:INTENT_CLASSIFICATION"
  else if f.response_error then "ERROR:RESPONSE_GENERATION"
  else if f.tool_used && f.tool_succeeded == some false then "ERROR:TOOL_INVOCATION"
  else if f.is_clarification then "SUCCESS:CLARIFICATION_ANSWERED"
  else if f.tool_used && f.tool_succeeded == some true then "SUCCESS:TASK_COMPLETED"
  else "SUCCESS:RESPONSE_GIVEN"

/-- Evaluate an ordered rule table top to bottom, returning the category
of the first rule whose predicate holds, else the default. -/
def firstMatch (default : String) : List (Bool × String) → String
  | [] => default
  | (b, c) :: rest => if b then c else firstMatch default rest

/-- The precedence table of spec section 4.2, written as an explicit
ordered list of (predicate, category) rules with SUCCESS:RESPONSE_GIVEN
as the default: three refusal rules, three ambiguity rules, four error
rules, clarification, then tool-success. -/
def spec_outcome_rules (f : DecisionFacts) : List (Bool × String) :=
  [ (f.is_out_of_scope, "REFUSAL:OUT_OF_SCOPE"),
    (f.is_missing_permission, "REFUSAL:MISSING_PERMISSION"),
    (f.is_rate_limited, "REFUSAL:RATE_LIMITED"),
    (f.is_ambiguous, "AMBIGUITY:UNCLEAR_INTENT"),
    (f.has_multiple_matches, "AMBIGUITY:MULTIPLE_MATCHES"),
    (f.has_missing_context, "AMBIGUITY:MISSING_CONTEXT"),
    (f.user_input_error, "ERROR:USER_INPUT"),
    (f.intent_error, "ERROR:INTENT_CLASSIFICATION"),
    (f.response_error, "ERROR:RESPONSE_GENERATION"),
    (f.tool_used && f.tool_succeeded == some false, "ERROR:TOOL_INVOCATION"),
    (f.is_clarification, "SUCCESS:CLARIFICATION_ANSWERED"),
    (f.tool_used && f.tool_succeeded == some true, "SUCCESS:TASK_COMPLETED") ]

/-- Spec section 4.2 assignment: first matching rule of the table,
defaulting to SUCCESS:RESPONSE_GIVEN. -/
def assign_outcome_category_spec (f : DecisionFacts) : String :=
  firstMatch "SUCCESS:RESPONSE_GIVEN" (spec_outcome_rules f)

/-! ## models.py / database.py: rows and the log store -/

/-- A decision_logs row (models.py DecisionLog / the decision_logs table).
rowId models the uuid4 primary key, decision_id the caller-supplied UUID,
created_at the ISO timestamp (order-preserving naturals). -/
structure DecisionRow where
  rowId : Nat
  decision_id : Nat
  conversation_id : String
  user_id : String
  message : String
  intent_type : String
  confidence : Option ℚ
  extracted_params : List (String × String)
  decision_type : String
  outcome_category : String
  response_text : Option String
  created_at : Nat
  duration_ms : Nat
deriving DecidableEq

/-- A tool_invocation_logs row (models.py ToolInvocationLog). -/
structure ToolRow where
  rowId : Nat
  decision_id : Nat
  tool_name : String
  parameters : List (String × String)
  result : Option (List (String × String))
  success : Bool
  error_code : Option String
  error_message : Option String
  duration_ms : Nat
  invoked_at : Nat
  sequence : Nat
deriving DecidableEq

/-- A baseline_snapshots row (models.py BaselineSnapshot). JSON maps are
association lists; fractions are rationals. -/
structure BaselineRow where
  rowId : Nat
  snapshot_name : String
  description : Option String
  created_at : Nat
  sample_start : Nat
  sample_end : Nat
  intent_distribution : List (String × ℚ)
  tool_frequency : List (String × Nat)
  error_rate : ℚ
  sample_size : Nat
deriving DecidableEq

/-- A flagged drift metric. The source renders it as the string
"kind:name increased/decreased by pct"; the numeric formatting is kept
symbolic here (kind, name, direction, absolute amount). -/
structure FlaggedMetric where
  kind : String
  name : String
  increased : Bool
  amount : ℚ
deriving DecidableEq

/-- models.py DriftReport (derived, not persisted). -/
structure DriftReport where
  baseline_id : Nat
  baseline_name : String
  comparison_period : Nat × Nat
  intent_drift : List (String × ℚ)
  tool_drift : List (String × ℚ)
  max_drift : ℚ
  drift_exceeded : Bool
  flagged_metrics : List FlaggedMetric
deriving DecidableEq

/-- validation_service per-test result record (the dict built in
run_validation). status is one of "PASS", "FAIL", "SKIP". -/
structure TestResult where
  test_id : String
  input : String
  expected_intent : String
  actual_intent : Option String
  expected_tool : Option String
  actual_tool : Option String
  expected_outcome : String
  actual_outcome : Option String
  status : String
  reason : Option String
deriving DecidableEq

/-- The drift_metrics dict merged into a validation report
(intent_drift, max_drift, threshold_exceeded); none when empty. -/
structure ValidationDriftMetrics where
  intent_drift : List (String × ℚ)
  max_drift : ℚ
  threshold_exceeded : Bool
deriving DecidableEq

/-- models.py ValidationReport. -/
structure ValidationReport where
  test_count : Nat
  pass_count : Nat
  fail_count : Nat
  tests : List TestResult
  drift_metrics : Option ValidationDriftMetrics
  duration_ms : Nat
  drift_detected : Bool
  baseline_id : Option Nat
deriving DecidableEq

/-- models.py TestCase (a validation fixture). -/
structure TestCase where
  test_id : String
  input_message : String
  expected_intent : String
  expected_tool : Option String
  expected_outcome : String
deriving DecidableEq

/-- models.py DecisionTrace: a decision and its ordered tool invocations. -/
structure DecisionTrace where
  decision : DecisionRow
  tool_invocations : List ToolRow
deriving DecidableEq

/-- models.py QueryResult. -/
structure QueryResult where
  items : List DecisionRow
  total : Nat
  has_more : Bool
deriving DecidableEq

/-- The four tables of logs.db (database.py init_log_db), each in row
insertion order. -/
structure LogStore where
  decision_logs : List DecisionRow
  tool_invocation_logs : List ToolRow
  baseline_snapshots : List BaselineRow
  validation_reports : List (Nat × ValidationReport)
deriving DecidableEq

/-- The exceptions raised by the observability services. -/
inductive LogErr where
  | validationError
  | storageError
  | invalidDecision
  | decisionNotFound
  | insufficientData
  | duplicateName
  | baselineNotFound
deriving DecidableEq

/-! ## logging_service.py -/

/-- LoggingService state: the store plus the in-process per-decision
sequence counter dictionary self.tool_sequence. -/
structure ObsState where
  store : LogStore
  tool_sequence : List (Nat × Nat)
deriving DecidableEq

/-- Dictionary assignment d[k] = v on an association list. -/
def setEntry (m : List (Nat × Nat)) (k v : Nat) : List (Nat × Nat) :=
  match m with
  | [] => [(k, v)]
  | (k1, v1) :: rest => if k1 == k then (k, v) :: rest else (k1, v1) :: setEntry rest k v

/-- Keyword arguments of LoggingService.write_decision_log, with the
Python defaults. -/
structure DecisionWriteArgs where
  decision_id : Nat
  conversation_id : String
  user_id : String
  message : String
  intent_type : String
  decision_type : String
  outcome_category : String
  duration_ms : Nat
  confidence : Option ℚ := none
  extracted_params : List (String × String) := []
  response_text : Option String := none
deriving DecidableEq

/-- logging_service.py write_decision_log. rowId and now model the
uuid4() and utcnow() environment inputs; dbFail models an I/O failure of
the INSERT (caught by the source and re-raised as StorageError). The
INSERT also fails on the decision_logs UNIQUE(decision_id) constraint.
On success the row is appended and the sequence counter for the decision
is initialized to 0 (only after the successful insert, line 134). -/
def write_decision_log (a : DecisionWriteArgs) (rowId now : Nat) (dbFail : Bool)
    (st : ObsState) : ObsState × Except LogErr DecisionRow :=
  if !validate_outcome_category a.outcome_category then
    (st, .error .validationError)
  else
    let message := if a.message.data.length > 4000 then String.mk (a.message.data.take 4000)
                   else a.message
    let log : DecisionRow :=
      { rowId := rowId, decision_id := a.decision_id,
        conversation_id := a.conversation_id, user_id := a.user_id,
        message := message, intent_type := a.intent_type,
        confidence := a.confidence, extracted_params := a.extracted_params,
        decision_type := a.decision_type, outcome_category := a.outcome_category,
        response_text := a.response_text, created_at := now,
        duration_ms := a.duration_ms }
    if dbFail || st.store.decision_logs.any (fun r => r.decision_id == a.decision_id) then
      (st, .error .storageError)
    else
      let store := { st.store with decision_logs := st.store.decision_logs ++ [log] }
      ({ store := store, tool_sequence := setEntry st.tool_sequence a.decision_id 0 },
       .ok log)

/-- Keyword arguments of LoggingService.write_tool_invocation_log. -/
structure ToolWriteArgs where
  decision_id : Nat
  tool_name : String
  parameters : List (String × String)
  success : Bool
  duration_ms : Nat
  result : Option (List (String × String)) := none
  error_code : Option String := none
  error_message : Option String := none
  invoked_at : Option Nat := none
deriving DecidableEq

/-- logging_service.py write_tool_invocation_log. If the decision has no
counter entry, the decision table is consulted; a missing decision raises
InvalidDecisionError before any write. Otherwise the counter is
incremented and the sequence assigned BEFORE the insert is attempted
(lines 185-186 precede the try at 203), so on an insert failure (dbFail)
the counter remains advanced while no row is persisted. -/
def write_tool_invocation_log (a : ToolWriteArgs) (rowId now : Nat) (dbFail : Bool)
    (st : ObsState) : ObsState × Except LogErr ToolRow :=
  let known := (st.tool_sequence.lookup a.decision_id).isSome
  if !known && !(st.store.decision_logs.any (fun r => r.decision_id == a.decision_id)) then
    (st, .error .invalidDecision)
  else
    let seqMap := if known then st.tool_sequence else setEntry st.tool_sequence a.decision_id 0
    let sequence := ((seqMap.lookup a.decision_id).getD 0) + 1
    let st1 : ObsState := { st with tool_sequence := setEntry seqMap a.decision_id sequence }
    let log : ToolRow :=
      { rowId := rowId, decision_id := a.decision_id, tool_name := a.tool_name,
        parameters := a.parameters, result := a.result, success := a.success,
        error_code := a.error_code, error_message := a.error_message,
        duration_ms := a.duration_ms, invoked_at := a.invoked_at.getD now,
        sequence := sequence }
    if dbFail then
      (st1, .error .storageError)
    else
      ({ st1 with store := { st1.store with
          tool_invocation_logs := st1.store.tool_invocation_logs ++ [log] } },
       .ok log)

/-! ## query_service.py -/

/-- Newest-first ordering for ORDER BY created_at DESC. -/
def newestFirst (a b : DecisionRow) : Prop :=
  b.created_at ≤ a.created_at

instance : DecidableRel newestFirst := fun a b => Nat.decLe b.created_at a.created_at

instance : IsTotal DecisionRow newestFirst :=
  ⟨fun a b => Nat.le_total b.created_at a.created_at⟩

instance : IsTrans DecisionRow newestFirst :=
  ⟨fun _ _ _ h1 h2 => Nat.le_trans h2 h1⟩

/-- Ascending ordering for ORDER BY sequence ASC. -/
def bySeq (a b : ToolRow) : Prop :=
  a.sequence ≤ b.sequence

instance : DecidableRel bySeq := fun a b => Nat.decLe a.sequence b.sequence

instance : IsTotal ToolRow bySeq := ⟨fun a b => Nat.le_total a.sequence b.sequence⟩

instance : IsTrans ToolRow bySeq := ⟨fun _ _ _ h1 h2 => Nat.le_trans h1 h2⟩

/-- query_service.py get_decision_trace: the decision row (fetchone) and
its tool invocations ordered by sequence ascending. -/
def get_decision_trace (store : LogStore) (decision_id : Nat) :
    Except LogErr DecisionTrace :=
  match store.decision_logs.find? (fun r => r.decision_id == decision_id) with
  | none => .error .decisionNotFound
  | some d =>
      .ok { decision := d,
            tool_invocations :=
              (store.tool_invocation_logs.filter
                (fun r => r.decision_id == decision_id)).insertionSort bySeq }

/-- Keyword arguments of LogQueryService.query_decisions. none models an
omitted argument; a present-but-empty string is falsy in the source and
skips the condition just like none. -/
structure DecisionQuery where
  conversation_id : Option String := none
  user_id : Option String := none
  start_time : Option Nat := none
  end_time : Option Nat := none
  decision_type : Option String := none
  outcome_category : Option String := none
  limit : Nat := 100
  offset : Nat := 0
deriving DecidableEq

/-- The WHERE clause built by query_decisions: conjunction of the
conditions for every truthy filter. The outcome_category filter is exact
equality when the value contains a colon, and otherwise the SQL pattern
LIKE category:% (prefix match; categories are uppercase ASCII without
wildcard characters, so LIKE coincides with a prefix test). -/
def matchesQuery (q : DecisionQuery) (r : DecisionRow) : Bool :=
  (match q.conversation_id with
   | none => true
   | some c => c == "" || r.conversation_id == c) &&
  (match q.user_id with
   | none => true
   | some u => u == "" || r.user_id == u) &&
  (match q.start_time with
   | none => true
   | some t => decide (t ≤ r.created_at)) &&
  (match q.end_time with
   | none => true
   | some t => decide (r.created_at ≤ t)) &&
  (match q.decision_type with
   | none => true
   | some d => d == "" || r.decision_type == d) &&
  (match q.outcome_category with
   | none => true
   | some oc =>
       oc == "" ||
       (if oc.data.contains ':' then r.outcome_category == oc
        else pyStartsWith r.outcome_category (oc ++ ":")))

/-- query_service.py query_decisions: cap limit at 1000, COUNT the
matching rows, then fetch ORDER BY created_at DESC LIMIT limit OFFSET
offset; has_more = offset + len(items) < total. -/
def query_decisions (store : LogStore) (q : DecisionQuery) : QueryResult :=
  let limit := min q.limit 1000
  let rows := store.decision_logs.filter (matchesQuery q)
  let total := rows.length
  let items := ((rows.insertionSort newestFirst).drop q.offset).take limit
  { items := items, total := total,
    has_more := decide (q.offset + items.length < total) }

/-! ## baseline_service.py -/

/-- Decision rows with created_at in the closed window (the
created_at BETWEEN queries of the baseline service). -/
def decisionsInWindow (store : LogStore) (ws we : Nat) : List DecisionRow :=
  store.decision_logs.filter (fun r => decide (ws ≤ r.created_at) && decide (r.created_at ≤ we))

/-- Tool invocation rows with invoked_at in the closed window. -/
def toolsInWindow (store : LogStore) (ws we : Nat) : List ToolRow :=
  store.tool_invocation_logs.filter (fun r => decide (ws ≤ r.invoked_at) && decide (r.invoked_at ≤ we))

/-- GROUP BY intent_type with COUNT(*) * 1.0 / size: the per-intent
fraction map over a list of decision rows. -/
def intentDistribution (rows : List DecisionRow) (size : Nat) : List (String × ℚ) :=
  ((rows.map (fun r => r.intent_type)).dedup).map
    (fun i => (i, ((rows.countP (fun r => r.intent_type == i)) : ℚ) / (size : ℚ)))

/-- GROUP BY tool_name with COUNT(*): the per-tool count map over a list
of tool invocation rows. -/
def toolFrequency (rows : List ToolRow) : List (String × Nat) :=
  ((rows.map (fun r => r.tool_name)).dedup).map
    (fun t => (t, rows.countP (fun r => r.tool_name == t)))

/-- baseline_service.py create_baseline: duplicate-name check, sample
count against min_sample_size, then the snapshot is computed and
inserted. rowId and now model uuid4() and utcnow(). -/
def create_baseline (name : String) (description : Option String)
    (sample_start sample_end : Nat) (min_sample_size : Nat) (rowId now : Nat)
    (store : LogStore) : LogStore × Except LogErr BaselineRow :=
  if store.baseline_snapshots.any (fun b => b.snapshot_name == name) then
    (store, .error .duplicateName)
  else
    let sample := decisionsInWindow store sample_start sample_end
    let sample_size := sample.length
    if sample_size < min_sample_size then
      (store, .error .insufficientData)
    else
      let baseline : BaselineRow :=
        { rowId := rowId, snapshot_name := name, description := description,
          created_at := now, sample_start := sample_start, sample_end := sample_end,
          intent_distribution := intentDistribution sample sample_size,
          tool_frequency := toolFrequency (toolsInWindow store sample_start sample_end),
          error_rate := ((sample.countP
              (fun r => pyStartsWith r.outcome_category "ERROR:")) : ℚ) / (sample_size : ℚ),
          sample_size := sample_size }
      ({ store with baseline_snapshots := store.baseline_snapshots ++ [baseline] },
       .ok baseline)

/-- baseline_service.py get_baseline: lookup by primary key. -/
def get_baseline (store : LogStore) (baseline_id : Nat) : Except LogErr BaselineRow :=
  match store.baseline_snapshots.find? (fun b => b.rowId == baseline_id) with
  | none => .error .baselineNotFound
  | some b => .ok b

/-- One step of the max-drift / flagged-metrics accumulation loop of
compare_to_baseline (one (name, drift) pair of a drift map). -/
def driftStep (drift_threshold : ℚ) (kind : String) (acc : ℚ × List FlaggedMetric)
    (p : String × ℚ) : ℚ × List FlaggedMetric :=
  let abs_drift := |p.2|
  let max_drift := if abs_drift > acc.1 then abs_drift else acc.1
  let flagged := if abs_drift > drift_threshold then
      acc.2 ++ [{ kind := kind, name := p.1,
                  increased := decide (p.2 > 0), amount := abs_drift }]
    else acc.2
  (max_drift, flagged)

/-- The zero-drift, non-exceeded report returned by compare_to_baseline
when the current window holds no decisions. -/
def zeroDriftReport (baseline_id : Nat) (baseline_name : String)
    (current_start current_end : Nat) : DriftReport :=
  { baseline_id := baseline_id, baseline_name := baseline_name,
    comparison_period := (current_start, current_end),
    intent_drift := [], tool_drift := [], max_drift := 0,
    drift_exceeded := false, flagged_metrics := [] }

/-- baseline_service.py compare_to_baseline. A zero-decision current
window returns the zero-drift report before any distribution is
computed. Tool drift is normalized by each window total with the Python
idiom sum(...) or 1 replacing a zero total by 1. -/
def compare_to_baseline (store : LogStore) (baseline_id : Nat)
    (current_start current_end : Nat) (drift_threshold : ℚ) :
    Except LogErr DriftReport :=
  match get_baseline store baseline_id with
  | .error e => .error e
  | .ok baseline =>
    let current := decisionsInWindow store current_start current_end
    let current_sample_size := current.length
    if current_sample_size == 0 then
      .ok (zeroDriftReport baseline_id baseline.snapshot_name current_start current_end)
    else
      let current_intent_dist := intentDistribution current current_sample_size
      let current_tool_freq := toolFrequency (toolsInWindow store current_start current_end)
      let all_intents := ((baseline.intent_distribution.map Prod.fst) ++
          (current_intent_dist.map Prod.fst)).dedup
      let intent_drift := all_intents.map (fun i =>
          (i, ((current_intent_dist.lookup i).getD 0) -
              ((baseline.intent_distribution.lookup i).getD 0)))
      let sumB := ((baseline.tool_frequency.map Prod.snd).sum)
      let total_baseline_tools := if sumB == 0 then 1 else sumB
      let sumC := ((current_tool_freq.map Prod.snd).sum)
      let total_current_tools := if sumC == 0 then 1 else sumC
      let all_tools := ((baseline.tool_frequency.map Prod.fst) ++
          (current_tool_freq.map Prod.fst)).dedup
      let tool_drift := all_tools.map (fun t =>
          (t, (((current_tool_freq.lookup t).getD 0 : ℚ) / (total_current_tools : ℚ)) -
              (((baseline.tool_frequency.lookup t).getD 0 : ℚ) / (total_baseline_tools : ℚ))))
      let acc1 := intent_drift.foldl (driftStep drift_threshold "intent") (0, [])
      let acc2 := tool_drift.foldl (driftStep drift_threshold "tool") acc1
      .ok { baseline_id := baseline_id, baseline_name := baseline.snapshot_name,
            comparison_period := (current_start, current_end),
            intent_drift := intent_drift, tool_drift := tool_drift,
            max_drift := acc2.1, drift_exceeded := decide (acc2.1 > drift_threshold),
            flagged_metrics := acc2.2 }

/-! ## validation_service.py -/

/-- A Python exception inside the drift try-block of run_validation:
either an AttributeError from attribute lookup, or an application
exception propagated from the baseline service. -/
inductive PyExc where
  | attributeError
  | appErr (e : LogErr)
deriving DecidableEq

/-- The expression datetime.timedelta(hours=24) at
validation_service.py line 185. The module imports the name datetime
with from datetime import datetime (line 10), so datetime is the
datetime CLASS, which has no timedelta attribute: evaluating the
expression raises AttributeError (inside the try-block that starts at
line 182). The intended value, a 24-hour interval, is never produced. -/
def datetime_class_timedelta (_hours : Nat) : Except PyExc Nat :=
  .error .attributeError

/-- The tool name of a decision's first tool invocation by sequence
(SELECT tool_name ... ORDER BY sequence LIMIT 1), none when the decision
has no tool invocations. -/
def firstToolName (store : LogStore) (decision_id : Nat) : Option String :=
  (((store.tool_invocation_logs.filter
      (fun r => r.decision_id == decision_id)).insertionSort bySeq).head?).map
    (fun r => r.tool_name)

/-- The per-fixture body of the run_validation loop: find the most
recent decision log whose message contains the fixture input (LIKE with
percent wildcards, ORDER BY created_at DESC LIMIT 1); absent a match the
test is SKIP; otherwise compare intent exactly, the expected tool (when
present) against the tool name of the first invocation by sequence, and
the outcome category by prefix. -/
def evalFixture (store : LogStore) (tc : TestCase) : TestResult :=
  let ms := store.decision_logs.filter
      (fun r => isSubstr tc.input_message.data r.message.data)
  match (ms.insertionSort newestFirst).head? with
  | none =>
      { test_id := tc.test_id, input := tc.input_message,
        expected_intent := tc.expected_intent, actual_intent := none,
        expected_tool := tc.expected_tool, actual_tool := none,
        expected_outcome := tc.expected_outcome, actual_outcome := none,
        status := "SKIP", reason := some "No matching log found" }
  | some row =>
      let actual_tool := firstToolName store row.decision_id
      let intent_match := row.intent_type == tc.expected_intent
      let tool_match := match tc.expected_tool with
        | none => true
        | some t => actual_tool == some t
      let outcome_match := pyStartsWith row.outcome_category tc.expected_outcome
      let passed := intent_match && tool_match && outcome_match
      { test_id := tc.test_id, input := tc.input_message,
        expected_intent := tc.expected_intent, actual_intent := some row.intent_type,
        expected_tool := tc.expected_tool, actual_tool := actual_tool,
        expected_outcome := tc.expected_outcome,
        actual_outcome := some row.outcome_category,
        status := if passed then "PASS" else "FAIL", reason := none }

/-- validation_service.py run_validation. start_time and end_time model
the two utcnow() calls, rowId the report uuid4(). The drift block runs
only when baseline_id is given: inside its try-block the broken
datetime.timedelta expression raises before compare_to_baseline can be
called, the blanket except swallows the exception, and (drift_detected,
drift_metrics) keep their initial (False, empty) values. The report is
then persisted and returned. -/
def run_validation (store : LogStore) (test_fixtures : List TestCase)
    (baseline_id : Option Nat) (start_time end_time rowId : Nat) :
    LogStore × ValidationReport :=
  let acc := test_fixtures.foldl
    (fun (acc : List TestResult × Nat × Nat) tc =>
      let r := evalFixture store tc
      (acc.1 ++ [r],
       (if r.status == "PASS" then acc.2.1 + 1 else acc.2.1,
        if r.status == "FAIL" then acc.2.2 + 1 else acc.2.2)))
    ([], 0, 0)
  let drift : Bool × Option ValidationDriftMetrics :=
    match baseline_id with
    | none => (false, none)
    | some bid =>
        let attempt : Except PyExc ValidationDriftMetrics := do
          let delta ← datetime_class_timedelta 24
          let rep ← (compare_to_baseline store bid (start_time - delta) end_time
              (1 / 10)).mapError PyExc.appErr
          pure { intent_drift := rep.intent_drift, max_drift := rep.max_drift,
                 threshold_exceeded := rep.drift_exceeded }
        match attempt with
        | .ok m => (m.threshold_exceeded, some m)
        | .error _ => (false, none)
  let report : ValidationReport :=
    { test_count := test_fixtures.length, pass_count := acc.2.1,
      fail_count := acc.2.2, tests := acc.1, drift_metrics := drift.2,
      duration_ms := end_time - start_time, drift_detected := drift.1,
      baseline_id := baseline_id }
  ({ store with validation_reports := store.validation_reports ++ [(rowId, report)] },
   report)

/-! ## Helper lemmas -/

/-- The result of an ordered rule table is the default or one of the
listed categories. -/
lemma firstMatch_mem (d : String) (l : List (Bool × String)) :
    firstMatch d l ∈ d :: l.map Prod.snd := by
  induction l with
  | nil => simp [firstMatch]
  | cons p rest ih =>
      obtain ⟨b, c⟩ := p
      by_cases hb : b = true
      · simp [firstMatch, hb]
      · simp only [firstMatch, hb, if_false, List.map_cons, if_neg]
        simp only [List.mem_cons] at ih ⊢
        tauto

/-- A key found by List.lookup is present in the association list. -/
lemma mem_of_lookup_eq_some {α β : Type} [BEq α] [LawfulBEq α]
    {l : List (α × β)} {k : α} {v : β}
    (h : l.lookup k = some v) : (k, v) ∈ l := by
  induction l with
  | nil => simp [List.lookup] at h
  | cons p t ih =>
      obtain ⟨k1, v1⟩ := p
      rw [List.lookup] at h
      by_cases hk : (k == k1) = true
      · obtain rfl := eq_of_beq hk
        simp [hk] at h
        subst h
        exact List.mem_cons_self _ _
      · simp only [hk, Bool.false_eq_true, if_false] at h
        exact List.mem_cons_of_mem _ (ih h)

/-! ## Claim theorems -/

/-- A fact combination with an out-of-scope refusal together with a used
and succeeded tool. -/
def refusalWithSucceededTool : DecisionFacts :=
  { is_out_of_scope := true, tool_used := true, tool_succeeded := some true }

/-- C2: assign_outcome_category applies the fixed precedence order of
spec section 4.2 top to bottom, returning on the first match (refusals,
then ambiguities, then errors, then clarification, then tool-success,
then the SUCCESS:RESPONSE_GIVEN default); an out-of-scope refusal fact
combined with a used-and-succeeded tool yields REFUSAL:OUT_OF_SCOPE and
never SUCCESS:TASK_COMPLETED; and every assigned category is accepted by
validate_outcome_category. -/
theorem C2_assign_precedence :
    (∀ f : DecisionFacts, assign_outcome_category f = assign_outcome_category_spec f) ∧
    (assign_outcome_category refusalWithSucceededTool = "REFUSAL:OUT_OF_SCOPE" ∧
     assign_outcome_category refusalWithSucceededTool ≠ "SUCCESS:TASK_COMPLETED") ∧
    (∀ f : DecisionFacts, validate_outcome_category (assign_outcome_category f) = true) := by
  refine ⟨fun f => rfl, ⟨by decide, by decide⟩, fun f => ?_⟩
  have he : assign_outcome_category f = assign_outcome_category_spec f := rfl
  have h := firstMatch_mem "SUCCESS:RESPONSE_GIVEN" (spec_outcome_rules f)
  rw [he, assign_outcome_category_spec]
  revert h
  generalize firstMatch "SUCCESS:RESPONSE_GIVEN" (spec_outcome_rules f) = s
  intro h
  simp only [spec_outcome_rules, List.map_cons, List.map_nil, List.mem_cons,
    List.not_mem_nil, or_false] at h
  rcases h with rfl|rfl|rfl|rfl|rfl|rfl|rfl|rfl|rfl|rfl|rfl|rfl|rfl <;> decide

/-- C3: write_decision_log rejects any outcome_category outside the 13
valid strings with a validation error and leaves the state untouched;
for a valid category, the persisted decision log carries the caller's
message truncated to its first 4000 characters, and a message of at most
4000 characters is stored unchanged. -/
theorem C3_decision_log_validation_truncation :
    ∀ (a : DecisionWriteArgs) (rowId now : Nat) (dbFail : Bool) (st : ObsState),
      (validate_outcome_category a.outcome_category = false →
        write_decision_log a rowId now dbFail st = (st, .error .validationError)) ∧
      (validate_outcome_category a.outcome_category = true →
        dbFail = false →
        st.store.decision_logs.any (fun r => r.decision_id == a.decision_id) = false →
        ((write_decision_log a rowId now dbFail st).1.store.decision_logs.map
            (fun r => r.message)) =
          (st.store.decision_logs.map (fun r => r.message)) ++
            [String.mk (a.message.data.take 4000)]) ∧
      (validate_outcome_category a.outcome_category = true →
        dbFail = false →
        st.store.decision_logs.any (fun r => r.decision_id == a.decision_id) = false →
        a.message.data.length ≤ 4000 →
        ((write_decision_log a rowId now dbFail st).1.store.decision_logs.map
            (fun r => r.message)) =
          (st.store.decision_logs.map (fun r => r.message)) ++ [a.message]) := by
  intro a rowId now dbFail st
  have htrunc : validate_outcome_category a.outcome_category = true →
      dbFail = false →
      st.store.decision_logs.any (fun r => r.decision_id == a.decision_id) = false →
      ((write_decision_log a rowId now dbFail st).1.store.decision_logs.map
          (fun r => r.message)) =
        (st.store.decision_logs.map (fun r => r.message)) ++
          [String.mk (a.message.data.take 4000)] := by
    intro hv hd hn
    subst hd
    simp only [write_decision_log, hv, Bool.not_true, Bool.false_eq_true, if_false,
      hn, Bool.false_or, Bool.or_self]
    by_cases hgt : a.message.data.length > 4000
    · simp only [hgt, if_true]
      simp [List.map_append]
    · have hle : a.message.data.length ≤ 4000 := le_of_not_lt hgt
      simp only [hgt, if_false]
      rw [List.take_of_length_le hle]
      simp [List.map_append]
  refine ⟨fun hv => by simp [write_decision_log, hv], htrunc, fun hv hd hn hlen => ?_⟩
  rw [htrunc hv hd hn, List.take_of_length_le hlen]

/-- C4: write_tool_invocation_log against a decision_id for which no
decision log exists, neither in the store nor in the in-process sequence
counter dictionary, fails with InvalidDecisionError and changes nothing:
the returned state is exactly the input state, so no tool invocation row
is persisted and no counter is created or advanced. -/
theorem C4_tool_log_unknown_decision :
    ∀ (a : ToolWriteArgs) (rowId now : Nat) (dbFail : Bool) (st : ObsState),
      st.tool_sequence.lookup a.decision_id = none →
      st.store.decision_logs.any (fun r => r.decision_id == a.decision_id) = false →
      write_tool_invocation_log a rowId now dbFail st = (st, .error .invalidDecision) := by
  intro a rowId now dbFail st h1 h2
  simp [write_tool_invocation_log, h1, h2]

/-! ## Concrete fixtures for witnesses and counterexamples -/

/-- The empty log store (fresh schema). -/
def emptyStore : LogStore :=
  { decision_logs := [], tool_invocation_logs := [],
    baseline_snapshots := [], validation_reports := [] }

/-- A fresh logging-service state over the empty store. -/
def emptyState : ObsState := { store := emptyStore, tool_sequence := [] }

/-- write_decision_log arguments with an invalid outcome category. -/
def badCategoryArgs : DecisionWriteArgs :=
  { decision_id := 7, conversation_id := "conv-1", user_id := "user-1",
    message := "remind me to buy milk", intent_type := "CREATE_TASK",
    decision_type := "INVOKE_TOOL", outcome_category := "BOGUS", duration_ms := 5 }

/-- The same write arguments with a valid outcome category. -/
def goodArgs : DecisionWriteArgs :=
  { badCategoryArgs with outcome_category := "SUCCESS:TASK_COMPLETED" }

/-- A tool invocation write for decision 7. -/
def toolArgs1 : ToolWriteArgs :=
  { decision_id := 7, tool_name := "add_task",
    parameters := [("title", "buy milk")], success := true, duration_ms := 3 }

/-- A second tool invocation write for decision 7. -/
def toolArgs2 : ToolWriteArgs :=
  { decision_id := 7, tool_name := "list_tasks", parameters := [],
    success := true, duration_ms := 4 }

/-- The decision row persisted by writing goodArgs into the empty state
with row id 1 at time 10. -/
def goodRow : DecisionRow :=
  { rowId := 1, decision_id := 7, conversation_id := "conv-1", user_id := "user-1",
    message := "remind me to buy milk", intent_type := "CREATE_TASK",
    confidence := none, extracted_params := [], decision_type := "INVOKE_TOOL",
    outcome_category := "SUCCESS:TASK_COMPLETED", response_text := none,
    created_at := 10, duration_ms := 5 }

/-- Witness for C3 at concrete inputs: the invalid category is rejected
without a write, and the valid write persists the (un)truncated message. -/
theorem C3_witness :
    (write_decision_log badCategoryArgs 1 10 false emptyState =
      (emptyState, .error .validationError)) ∧
    ((write_decision_log goodArgs 1 10 false emptyState).1.store.decision_logs.map
        (fun r => r.message)) =
      (emptyState.store.decision_logs.map (fun r => r.message)) ++
        [String.mk (goodArgs.message.data.take 4000)] ∧
    ((write_decision_log goodArgs 1 10 false emptyState).1.store.decision_logs.map
        (fun r => r.message)) =
      (emptyState.store.decision_logs.map (fun r => r.message)) ++ [goodArgs.message] :=
  ⟨(C3_decision_log_validation_truncation badCategoryArgs 1 10 false emptyState).1
      (by decide),
   (C3_decision_log_validation_truncation goodArgs 1 10 false emptyState).2.1
      (by decide) rfl (by decide),
   (C3_decision_log_validation_truncation goodArgs 1 10 false emptyState).2.2
      (by decide) rfl (by decide) (by decide)⟩

/-- Witness for C4 at a concrete input: a tool-invocation write against
the empty store fails with InvalidDecisionError and changes nothing. -/
theorem C4_witness :
    write_tool_invocation_log toolArgs1 2 11 false emptyState =
      (emptyState, .error .invalidDecision) :=
  C4_tool_log_unknown_decision toolArgs1 2 11 false emptyState (by decide) (by decide)

/-! ## C1: the sequence-gap scenario -/

/-- State after successfully writing decision 7 through the service. -/
def c1State1 : ObsState := (write_decision_log goodArgs 1 10 false emptyState).1

/-- A tool-invocation write for decision 7 whose database insert fails:
the sequence counter is incremented before the insert is attempted. -/
def c1Step2 : ObsState × Except LogErr ToolRow :=
  write_tool_invocation_log toolArgs1 2 11 true c1State1

/-- A subsequent successful tool-invocation write for decision 7. -/
def c1Step3 : ObsState × Except LogErr ToolRow :=
  write_tool_invocation_log toolArgs2 3 12 false c1Step2.1

/-- C1 counterexample evaluation: decision 7 is written successfully;
one tool-invocation write fails at the insert (consuming sequence
number 1 without persisting anything); the next write succeeds and is
persisted with sequence 2. The decision trace then returns the single
persisted invocation with sequence 2, so the persisted sequence values
for the decision are [2], not 1..n - the gap the claim rules out. -/
theorem C1_sequence_gap_on_storage_failure :
    ((write_decision_log goodArgs 1 10 false emptyState).2 = .ok goodRow) ∧
    (c1Step2.2 = .error .storageError) ∧
    (((c1Step3.1.store.tool_invocation_logs.filter
        (fun r => r.decision_id == 7)).map (fun r => r.sequence)) = [2]) ∧
    ((get_decision_trace c1Step3.1.store 7).map
        (fun t => t.tool_invocations.map (fun r => r.sequence)) = .ok [2]) ∧
    ¬ (((c1Step3.1.store.tool_invocation_logs.filter
          (fun r => r.decision_id == 7)).map (fun r => r.sequence)) =
        List.range' 1 ((c1Step3.1.store.tool_invocation_logs.filter
          (fun r => r.decision_id == 7)).length)) := by
  refine ⟨rfl, rfl, rfl, rfl, by decide⟩

/-- C6: create_baseline fails with a duplicate-name error when the
snapshot name already exists, and with an insufficient-data error when
the decision count of the sample window is below min_sample_size; in
both cases the returned store is exactly the input store, so no snapshot
row (partial or otherwise) is written. -/
theorem C6_create_baseline_failures :
    ∀ (name : String) (description : Option String)
      (ws we minSize rowId now : Nat) (store : LogStore),
      (store.baseline_snapshots.any (fun b => b.snapshot_name == name) = true →
        create_baseline name description ws we minSize rowId now store =
          (store, .error .duplicateName)) ∧
      (store.baseline_snapshots.any (fun b => b.snapshot_name == name) = false →
        (decisionsInWindow store ws we).length < minSize →
        create_baseline name description ws we minSize rowId now store =
          (store, .error .insufficientData)) := by
  intro name description ws we minSize rowId now store
  constructor
  · intro h
    simp [create_baseline, h]
  · intro h hlt
    simp [create_baseline, h, hlt]

/-- An existing baseline snapshot row used by the concrete scenarios:
all of the sample was CREATE_TASK and all tool calls were add_task. -/
def baselineRow1 : BaselineRow :=
  { rowId := 1, snapshot_name := "b1", description := none, created_at := 5,
    sample_start := 0, sample_end := 4,
    intent_distribution := [("CREATE_TASK", 1)],
    tool_frequency := [("add_task", 10)], error_rate := 0, sample_size := 10 }

/-- A store holding only the baselineRow1 snapshot. -/
def storeWithBaseline : LogStore :=
  { emptyStore with baseline_snapshots := [baselineRow1] }

/-- Witness for C6 at concrete inputs: a name collision and an
undersized window are both rejected without touching the store. -/
theorem C6_witness :
    (create_baseline "b1" none 0 100 10 2 50 storeWithBaseline =
      (storeWithBaseline, .error .duplicateName)) ∧
    (create_baseline "b2" none 0 100 10 2 50 storeWithBaseline =
      (storeWithBaseline, .error .insufficientData)) :=
  ⟨(C6_create_baseline_failures "b1" none 0 100 10 2 50 storeWithBaseline).1 (by decide),
   (C6_create_baseline_failures "b2" none 0 100 10 2 50 storeWithBaseline).2
      (by decide) (by decide)⟩

/-- C7: comparing any stored baseline against a current window that
holds zero decisions yields a report with empty intent and tool drift
maps, max_drift zero, drift_exceeded false and no flagged metrics. -/
theorem C7_empty_window_zero_drift :
    ∀ (store : LogStore) (bid cs ce : Nat) (thr : ℚ) (b : BaselineRow),
      get_baseline store bid = .ok b →
      (decisionsInWindow store cs ce).length = 0 →
      compare_to_baseline store bid cs ce thr =
        .ok (zeroDriftReport bid b.snapshot_name cs ce) := by
  intro store bid cs ce thr b hb hz
  simp [compare_to_baseline, hb, hz]

/-- Witness for C7 at a concrete input: the stored baseline compared
over the empty window 200..300. -/
theorem C7_witness :
    compare_to_baseline storeWithBaseline 1 200 300 (1 / 10) =
      .ok (zeroDriftReport 1 "b1" 200 300) :=
  C7_empty_window_zero_drift storeWithBaseline 1 200 300 (1 / 10) baselineRow1
    rfl (by decide)

/-- C10: in compare_to_baseline, tool-drift normalization never divides
by zero. Past the empty-window early return: (a) when the current window
holds no tool invocations, its total is zero, the denominator becomes 1,
every baseline tool still appears in the tool-drift map and its drift is
0 minus the baseline fraction (the signed negation); (b) when the stored
baseline tool total is zero, every tool-drift value equals exactly the
current window fraction for that tool. -/
theorem C10_tool_drift_zero_total :
    ∀ (store : LogStore) (bid cs ce : Nat) (thr : ℚ) (b : BaselineRow)
      (rep : DriftReport),
      get_baseline store bid = .ok b →
      compare_to_baseline store bid cs ce thr = .ok rep →
      (decisionsInWindow store cs ce).length ≠ 0 →
      (toolsInWindow store cs ce = [] →
          rep.tool_drift = (b.tool_frequency.map Prod.fst).dedup.map (fun t =>
            (t, 0 - (((b.tool_frequency.lookup t).getD 0 : ℚ) /
              (((if (b.tool_frequency.map Prod.snd).sum == 0 then 1
                 else (b.tool_frequency.map Prod.snd).sum : ℕ)) : ℚ))))) ∧
      ((b.tool_frequency.map Prod.snd).sum = 0 →
          ∀ t d, (t, d) ∈ rep.tool_drift →
            d = ((((toolFrequency (toolsInWindow store cs ce)).lookup t).getD 0 : ℚ) /
              (((if ((toolFrequency (toolsInWindow store cs ce)).map Prod.snd).sum == 0 then 1
                 else ((toolFrequency (toolsInWindow store cs ce)).map Prod.snd).sum : ℕ)) : ℚ))) := by
  intro store bid cs ce thr b rep hb hc hnz
  have hzf : ((decisionsInWindow store cs ce).length == 0) = false := by
    simpa using hnz
  rw [compare_to_baseline, hb] at hc
  simp only [hzf, Bool.false_eq_true, if_false, Except.ok.injEq] at hc
  subst hc
  constructor
  · intro hcur
    simp only [hcur, toolFrequency, List.map_nil, List.dedup_nil, List.append_nil]
    refine List.map_congr_left ?_
    intro t ht
    simp [List.lookup]
  · intro hsum
    intro t d hmem
    simp only [List.mem_map] at hmem
    obtain ⟨t1, ht1, heq⟩ := hmem
    obtain ⟨rfl, rfl⟩ := Prod.mk.injEq .. |>.mp heq
    have hbl : ((b.tool_frequency.lookup t1).getD 0 : ℚ) = 0 := by
      cases hl : b.tool_frequency.lookup t1 with
      | none => simp
      | some v =>
          have hv : v = 0 := by
            have hmem2 : (t1, v) ∈ b.tool_frequency := mem_of_lookup_eq_some hl
            have : v ∈ b.tool_frequency.map Prod.snd :=
              List.mem_map.mpr ⟨(t1, v), hmem2, rfl⟩
            exact (List.sum_eq_zero_iff.mp hsum) v this
          simp [hv]
    rw [hbl]
    simp [hsum]

/-- The bare-category ERROR query with given limit and offset. -/
def errQuery (limit offset : Nat) : DecisionQuery :=
  { outcome_category := some "ERROR", limit := limit, offset := offset }

/-- The WHERE clause of the bare ERROR query is exactly the ERROR: prefix
test ("ERROR" has no colon, so the LIKE branch applies). -/
lemma matchesQuery_err (limit offset : Nat) (r : DecisionRow) :
    matchesQuery (errQuery limit offset) r =
      pyStartsWith r.outcome_category "ERROR:" := rfl

/-- Structure of every query_decisions result: items satisfy the WHERE
clause, are sorted newest first, respect the capped limit, has_more is
offset + len(items) < total, total counts all matches, and a first page
large enough to hold every match returns exactly the matches. -/
lemma query_decisions_spec (store : LogStore) (q : DecisionQuery) :
    (∀ r ∈ (query_decisions store q).items, matchesQuery q r = true) ∧
    List.Sorted newestFirst (query_decisions store q).items ∧
    (query_decisions store q).items.length ≤ min q.limit 1000 ∧
    ((query_decisions store q).has_more = true ↔
      q.offset + (query_decisions store q).items.length < (query_decisions store q).total) ∧
    (query_decisions store q).total = (store.decision_logs.filter (matchesQuery q)).length ∧
    (q.offset = 0 → (store.decision_logs.filter (matchesQuery q)).length ≤ min q.limit 1000 →
      (query_decisions store q).items.Perm (store.decision_logs.filter (matchesQuery q))) := by
  set rows := store.decision_logs.filter (matchesQuery q) with hrows
  have hperm : (rows.insertionSort newestFirst).Perm rows := List.perm_insertionSort _ _
  have hsub : (((rows.insertionSort newestFirst).drop q.offset).take (min q.limit 1000)).Sublist
      (rows.insertionSort newestFirst) :=
    (List.take_sublist _ _).trans (List.drop_sublist _ _)
  refine ⟨?_, ?_, ?_, ?_, rfl, ?_⟩
  · intro r hr
    have hr2 : r ∈ rows.insertionSort newestFirst := hsub.subset hr
    have hr3 : r ∈ rows := hperm.mem_iff.mp hr2
    exact List.of_mem_filter hr3
  · exact (List.sorted_insertionSort newestFirst rows).sublist hsub
  · exact List.length_take_le _ _
  · simp [query_decisions]
  · intro hoff hlen
    have hlen2 : (rows.insertionSort newestFirst).length ≤ min q.limit 1000 := by
      rw [hperm.length_eq]; exact hlen
    show (((rows.insertionSort newestFirst).drop q.offset).take (min q.limit 1000)).Perm rows
    rw [hoff, List.drop_zero, List.take_of_length_le hlen2]
    exact hperm

/-- Two consecutive limit-5 pages of the bare ERROR query share no row
when row ids are unique. -/
lemma query_pages_disjoint (store : LogStore)
    (hnodup : (store.decision_logs.map (fun r => r.rowId)).Nodup) :
    ∀ r, r ∈ (query_decisions store (errQuery 5 0)).items →
      r ∉ (query_decisions store (errQuery 5 5)).items := by
  intro r h0 h1
  have hfe : ∀ (lim off : Nat),
      store.decision_logs.filter (matchesQuery (errQuery lim off)) =
        store.decision_logs.filter
          (fun r => pyStartsWith r.outcome_category "ERROR:") :=
    fun lim off => List.filter_congr (fun r _ => matchesQuery_err lim off r)
  set s := ((store.decision_logs.filter
      (fun r => pyStartsWith r.outcome_category "ERROR:")).insertionSort newestFirst) with hs
  have hnd : s.Nodup := by
    have hd : store.decision_logs.Nodup := List.Nodup.of_map _ hnodup
    have hdf : (store.decision_logs.filter
        (fun r => pyStartsWith r.outcome_category "ERROR:")).Nodup := hd.filter _
    exact ((List.perm_insertionSort newestFirst _).symm).nodup hdf
  have e0 : (query_decisions store (errQuery 5 0)).items = s.take 5 := by
    show ((((store.decision_logs.filter (matchesQuery (errQuery 5 0))).insertionSort
        newestFirst).drop 0).take (min 5 1000)) = s.take 5
    rw [hfe 5 0, List.drop_zero, ← hs]
    norm_num
  have e1 : (query_decisions store (errQuery 5 5)).items = (s.drop 5).take 5 := by
    show ((((store.decision_logs.filter (matchesQuery (errQuery 5 5))).insertionSort
        newestFirst).drop 5).take (min 5 1000)) = (s.drop 5).take 5
    rw [hfe 5 5, ← hs]
    norm_num
  rw [e0] at h0
  rw [e1] at h1
  exact (List.disjoint_take_drop hnd (le_refl 5)) h0 (List.take_subset _ _ h1)

/-- C5: query_decisions with the bare category ERROR returns only rows
whose stored category starts with ERROR: (and, when the first page is
large enough, exactly those rows), newest first, at most
min(limit, 1000) of them; has_more equals offset + len(items) < total
with total the full match count; and, with unique row ids, the limit-5
pages at offsets 0 and 5 share no row. -/
theorem C5_query_error_prefix_pagination :
    ∀ (store : LogStore) (limit offset : Nat),
      (∀ r ∈ (query_decisions store (errQuery limit offset)).items,
          pyStartsWith r.outcome_category "ERROR:" = true) ∧
      List.Sorted newestFirst (query_decisions store (errQuery limit offset)).items ∧
      (query_decisions store (errQuery limit offset)).items.length ≤ min limit 1000 ∧
      ((query_decisions store (errQuery limit offset)).has_more = true ↔
        offset + (query_decisions store (errQuery limit offset)).items.length <
          (query_decisions store (errQuery limit offset)).total) ∧
      (query_decisions store (errQuery limit offset)).total =
        (store.decision_logs.filter
          (fun r => pyStartsWith r.outcome_category "ERROR:")).length ∧
      (offset = 0 →
        (store.decision_logs.filter
          (fun r => pyStartsWith r.outcome_category "ERROR:")).length ≤ min limit 1000 →
        (query_decisions store (errQuery limit offset)).items.Perm
          (store.decision_logs.filter
            (fun r => pyStartsWith r.outcome_category "ERROR:"))) ∧
      ((store.decision_logs.map (fun r => r.rowId)).Nodup →
        ∀ r, r ∈ (query_decisions store (errQuery 5 0)).items →
          r ∉ (query_decisions store (errQuery 5 5)).items) := by
  intro store limit offset
  have hfe : store.decision_logs.filter (matchesQuery (errQuery limit offset)) =
      store.decision_logs.filter (fun r => pyStartsWith r.outcome_category "ERROR:") :=
    List.filter_congr (fun r _ => matchesQuery_err limit offset r)
  obtain ⟨h1, h2, h3, h4, h5, h6⟩ := query_decisions_spec store (errQuery limit offset)
  refine ⟨?_, h2, h3, h4, ?_, ?_, query_pages_disjoint store⟩
  · intro r hr
    have := h1 r hr
    rwa [matchesQuery_err] at this
  · rw [h5, hfe]
  · intro hoff hlen
    have := h6 hoff (by rwa [hfe])
    rwa [hfe] at this

/-- An ERROR decision row for the C5 pagination scenario (newest). -/
def c5row1 : DecisionRow :=
  { rowId := 11, decision_id := 21, conversation_id := "conv-5", user_id := "user-5",
    message := "do a thing", intent_type := "CREATE_TASK", confidence := none,
    extracted_params := [], decision_type := "INVOKE_TOOL",
    outcome_category := "ERROR:USER_INPUT", response_text := none,
    created_at := 30, duration_ms := 2 }

/-- A second ERROR decision row (oldest). -/
def c5row2 : DecisionRow :=
  { c5row1 with
    rowId := 12, decision_id := 22,
    outcome_category := "ERROR:TOOL_INVOCATION", created_at := 10 }

/-- A SUCCESS decision row that the ERROR query must not return. -/
def c5row3 : DecisionRow :=
  { c5row1 with
    rowId := 13, decision_id := 23,
    outcome_category := "SUCCESS:RESPONSE_GIVEN", created_at := 20 }

/-- Store for the C5 witness: two ERROR rows and a SUCCESS row. -/
def c5store : LogStore :=
  { decision_logs := [c5row1, c5row2, c5row3], tool_invocation_logs := [],
    baseline_snapshots := [], validation_reports := [] }

/-- Witness for C5 at a concrete store: the total counts the two ERROR
rows, the first page is sorted and is a permutation of exactly the ERROR
rows, and a row of the first page does not reappear on the second. -/
theorem C5_witness :
    ((query_decisions c5store (errQuery 5 0)).total =
      (c5store.decision_logs.filter
        (fun r => pyStartsWith r.outcome_category "ERROR:")).length) ∧
    List.Sorted newestFirst (query_decisions c5store (errQuery 5 0)).items ∧
    ((query_decisions c5store (errQuery 5 0)).items.Perm
      (c5store.decision_logs.filter
        (fun r => pyStartsWith r.outcome_category "ERROR:"))) ∧
    c5row1 ∉ (query_decisions c5store (errQuery 5 5)).items :=
  ⟨(C5_query_error_prefix_pagination c5store 5 0).2.2.2.2.1,
   (C5_query_error_prefix_pagination c5store 5 0).2.1,
   (C5_query_error_prefix_pagination c5store 5 0).2.2.2.2.2.1 rfl (by decide),
   (C5_query_error_prefix_pagination c5store 5 0).2.2.2.2.2.2 (by decide) c5row1
     (by decide)⟩

/-- The run_validation accumulation loop appends one result per fixture
and counts exactly the PASS and FAIL statuses. -/
lemma runval_fold (store : LogStore) (l : List TestCase)
    (acc : List TestResult × Nat × Nat) :
    l.foldl (fun (acc : List TestResult × Nat × Nat) tc =>
      let r := evalFixture store tc
      (acc.1 ++ [r],
       (if r.status == "PASS" then acc.2.1 + 1 else acc.2.1,
        if r.status == "FAIL" then acc.2.2 + 1 else acc.2.2))) acc =
    (acc.1 ++ l.map (evalFixture store),
     (acc.2.1 + (l.map (evalFixture store)).countP (fun r => r.status == "PASS"),
      acc.2.2 + (l.map (evalFixture store)).countP (fun r => r.status == "FAIL"))) := by
  induction l generalizing acc with
  | nil => simp
  | cons tc rest ih =>
      simp only [List.foldl_cons, List.map_cons, List.countP_cons, ih]
      obtain ⟨res, p, f⟩ := acc
      simp only [List.append_assoc, List.singleton_append, Prod.mk.injEq]
      refine ⟨trivial, ?_, ?_⟩
      · by_cases hp : (evalFixture store tc).status == "PASS" <;> (simp [hp]; try omega)
      · by_cases hf : (evalFixture store tc).status == "FAIL" <;> (simp [hf]; try omega)

/-- The boolean pass condition of evalFixture, as a proposition: exact
intent match, expected tool absent or equal to the first invocation's
tool name, and outcome-category prefix match. -/
lemma passBool_iff (store : LogStore) (tc : TestCase) (row : DecisionRow) :
    (((row.intent_type == tc.expected_intent) &&
      (match tc.expected_tool with
       | none => true
       | some t => firstToolName store row.decision_id == some t) &&
      pyStartsWith row.outcome_category tc.expected_outcome) = true) ↔
    (row.intent_type = tc.expected_intent ∧
     (tc.expected_tool = none ∨
       firstToolName store row.decision_id = tc.expected_tool) ∧
     pyStartsWith row.outcome_category tc.expected_outcome = true) := by
  cases he : tc.expected_tool with
  | none => simp [Bool.and_eq_true, beq_iff_eq]
  | some t =>
      simp [Bool.and_eq_true, beq_iff_eq]
      tauto

/-- C8: run_validation records one result per fixture; pass_count and
fail_count count exactly the PASS and FAIL results (a SKIP counts in
neither); a fixture whose input text occurs in no decision-log message
is SKIP; otherwise the selected row is a matching row at least as recent
as every other match, and the result is PASS exactly when the intent
matches exactly, the expected tool (when non-null) equals the first tool
invocation's name by sequence, and the stored outcome category starts
with the expected outcome - otherwise FAIL. -/
theorem C8_validation_fixture_semantics :
    ∀ (store : LogStore) (fixtures : List TestCase) (bid : Option Nat)
      (t0 t1 rid : Nat),
      ((run_validation store fixtures bid t0 t1 rid).2.tests =
        fixtures.map (evalFixture store)) ∧
      ((run_validation store fixtures bid t0 t1 rid).2.test_count = fixtures.length) ∧
      ((run_validation store fixtures bid t0 t1 rid).2.pass_count =
        (fixtures.map (evalFixture store)).countP (fun r => r.status == "PASS")) ∧
      ((run_validation store fixtures bid t0 t1 rid).2.fail_count =
        (fixtures.map (evalFixture store)).countP (fun r => r.status == "FAIL")) ∧
      (∀ tc : TestCase,
        (store.decision_logs.filter
            (fun r => isSubstr tc.input_message.data r.message.data) = [] →
          (evalFixture store tc).status = "SKIP") ∧
        (∀ row, ((store.decision_logs.filter
              (fun r => isSubstr tc.input_message.data r.message.data)).insertionSort
                newestFirst).head? = some row →
          (row ∈ store.decision_logs.filter
              (fun r => isSubstr tc.input_message.data r.message.data)) ∧
          (∀ r2 ∈ store.decision_logs.filter
              (fun r => isSubstr tc.input_message.data r.message.data),
            r2.created_at ≤ row.created_at) ∧
          ((evalFixture store tc).status = "PASS" ↔
            (row.intent_type = tc.expected_intent ∧
             (tc.expected_tool = none ∨
               firstToolName store row.decision_id = tc.expected_tool) ∧
             pyStartsWith row.outcome_category tc.expected_outcome = true)) ∧
          ((evalFixture store tc).status = "FAIL" ↔
            ¬(row.intent_type = tc.expected_intent ∧
              (tc.expected_tool = none ∨
                firstToolName store row.decision_id = tc.expected_tool) ∧
              pyStartsWith row.outcome_category tc.expected_outcome = true)))) := by
  intro store fixtures bid t0 t1 rid
  refine ⟨?_, rfl, ?_, ?_, ?_⟩
  · show (fixtures.foldl _ ([], 0, 0)).1 = _
    rw [runval_fold]
    simp
  · show (fixtures.foldl _ ([], 0, 0)).2.1 = _
    rw [runval_fold]
    simp
  · show (fixtures.foldl _ ([], 0, 0)).2.2 = _
    rw [runval_fold]
    simp
  · intro tc
    constructor
    · intro hms
      simp [evalFixture, hms]
    · intro row hrow
      have hb := passBool_iff store tc row
      have hperm : ((store.decision_logs.filter
          (fun r => isSubstr tc.input_message.data r.message.data)).insertionSort
            newestFirst).Perm (store.decision_logs.filter
          (fun r => isSubstr tc.input_message.data r.message.data)) :=
        List.perm_insertionSort _ _
      have hmem : row ∈ store.decision_logs.filter
          (fun r => isSubstr tc.input_message.data r.message.data) := by
        have hr : row ∈ (store.decision_logs.filter
            (fun r => isSubstr tc.input_message.data r.message.data)).insertionSort
              newestFirst := by
          cases hh : (store.decision_logs.filter
              (fun r => isSubstr tc.input_message.data r.message.data)).insertionSort
                newestFirst with
          | nil => rw [hh] at hrow; simp at hrow
          | cons a t =>
              rw [hh] at hrow
              simp only [List.head?_cons, Option.some.injEq] at hrow
              subst hrow
              exact List.mem_cons_self _ _
        exact hperm.mem_iff.mp hr
      have hmax : ∀ r2 ∈ store.decision_logs.filter
          (fun r => isSubstr tc.input_message.data r.message.data),
          r2.created_at ≤ row.created_at := by
        intro r2 hr2
        have hr2s : r2 ∈ (store.decision_logs.filter
            (fun r => isSubstr tc.input_message.data r.message.data)).insertionSort
              newestFirst := hperm.mem_iff.mpr hr2
        have hsorted := List.sorted_insertionSort newestFirst
          (store.decision_logs.filter
            (fun r => isSubstr tc.input_message.data r.message.data))
        cases hh : (store.decision_logs.filter
            (fun r => isSubstr tc.input_message.data r.message.data)).insertionSort
              newestFirst with
        | nil => rw [hh] at hr2s; simp at hr2s
        | cons a t =>
            rw [hh] at hrow hr2s hsorted
            simp only [List.head?_cons, Option.some.injEq] at hrow
            subst hrow
            rcases List.mem_cons.mp hr2s with rfl | hr2t
            · exact le_refl _
            · exact (List.pairwise_cons.mp hsorted).1 r2 hr2t
      refine ⟨hmem, hmax, ?_, ?_⟩
      · rw [evalFixture, hrow]
        dsimp only
        split
        next h => exact iff_of_true rfl (hb.mp h)
        next h => exact iff_of_false (by decide) (fun hr => h (hb.mpr hr))
      · rw [evalFixture, hrow]
        dsimp only
        split
        next h => exact iff_of_false (by decide) (not_not_intro (hb.mp h))
        next h => exact iff_of_true rfl (fun hr => h (hb.mpr hr))

/-- The decision log matched by the C8 witness fixtures. -/
def c8row : DecisionRow :=
  { rowId := 31, decision_id := 41, conversation_id := "conv-8", user_id := "user-8",
    message := "please remind me to buy milk tomorrow", intent_type := "CREATE_TASK",
    confidence := none, extracted_params := [], decision_type := "INVOKE_TOOL",
    outcome_category := "SUCCESS:TASK_COMPLETED", response_text := none,
    created_at := 40, duration_ms := 7 }

/-- The first (and only) tool invocation of that decision. -/
def c8tool : ToolRow :=
  { rowId := 32, decision_id := 41, tool_name := "add_task", parameters := [],
    result := none, success := true, error_code := none, error_message := none,
    duration_ms := 2, invoked_at := 41, sequence := 1 }

/-- Store for the C8 witness. -/
def c8store : LogStore :=
  { decision_logs := [c8row], tool_invocation_logs := [c8tool],
    baseline_snapshots := [], validation_reports := [] }

/-- A fixture that passes against c8store. -/
def c8tcPass : TestCase :=
  { test_id := "TC1", input_message := "remind me to buy milk",
    expected_intent := "CREATE_TASK", expected_tool := some "add_task",
    expected_outcome := "SUCCESS" }

/-- A fixture with a wrong expected intent (fails). -/
def c8tcFail : TestCase :=
  { c8tcPass with test_id := "TC2", expected_intent := "GENERAL_CHAT" }

/-- A fixture whose input matches no log (skipped). -/
def c8tcSkip : TestCase :=
  { c8tcPass with test_id := "TC3", input_message := "completely different text" }

/-- Witness for C8 at concrete inputs: the pass counter counts the PASS
results, the unmatched fixture is SKIP, the matching fixture with
correct intent, tool and outcome prefix is PASS, and the wrong-intent
fixture is FAIL. -/
theorem C8_witness :
    ((run_validation c8store [c8tcPass, c8tcFail, c8tcSkip] none 100 110 9).2.pass_count =
      ([c8tcPass, c8tcFail, c8tcSkip].map (evalFixture c8store)).countP
        (fun r => r.status == "PASS")) ∧
    (evalFixture c8store c8tcSkip).status = "SKIP" ∧
    (evalFixture c8store c8tcPass).status = "PASS" ∧
    (evalFixture c8store c8tcFail).status = "FAIL" :=
  ⟨(C8_validation_fixture_semantics c8store [c8tcPass, c8tcFail, c8tcSkip]
      none 100 110 9).2.2.1,
   ((C8_validation_fixture_semantics c8store [] none 100 110 9).2.2.2.2
      c8tcSkip).1 (by decide),
   (((C8_validation_fixture_semantics c8store [] none 100 110 9).2.2.2.2
      c8tcPass).2 c8row rfl).2.2.1.mpr ⟨rfl, Or.inr rfl, rfl⟩,
   (((C8_validation_fixture_semantics c8store [] none 100 110 9).2.2.2.2
      c8tcFail).2 c8row rfl).2.2.2.mpr (by decide)⟩

/-- A decision inside the 200..300 comparison window. -/
def c10decision : DecisionRow :=
  { rowId := 4, decision_id := 9, conversation_id := "conv-2", user_id := "user-1",
    message := "show my tasks", intent_type := "LIST_TASKS", confidence := none,
    extracted_params := [], decision_type := "INVOKE_TOOL",
    outcome_category := "SUCCESS:TASK_COMPLETED", response_text := none,
    created_at := 250, duration_ms := 6 }

/-- Store for C10 case (a): one decision in the window, no tool calls. -/
def c10storeA : LogStore :=
  { storeWithBaseline with decision_logs := [c10decision] }

/-- A baseline snapshot whose stored tool counts sum to zero. -/
def baselineRow2 : BaselineRow :=
  { rowId := 2, snapshot_name := "b2", description := none, created_at := 5,
    sample_start := 0, sample_end := 4,
    intent_distribution := [("CREATE_TASK", 1)], tool_frequency := [],
    error_rate := 0, sample_size := 10 }

/-- A tool invocation inside the 200..300 comparison window. -/
def c10toolRow : ToolRow :=
  { rowId := 5, decision_id := 9, tool_name := "list_tasks", parameters := [],
    result := none, success := true, error_code := none, error_message := none,
    duration_ms := 2, invoked_at := 251, sequence := 1 }

/-- Store for C10 case (b): a zero-tool baseline and one current tool call. -/
def c10storeB : LogStore :=
  { decision_logs := [c10decision], tool_invocation_logs := [c10toolRow],
    baseline_snapshots := [baselineRow1, baselineRow2], validation_reports := [] }

/-- The drift report computed over c10storeA (case (a)). -/
def c10repA : DriftReport :=
  ((compare_to_baseline c10storeA 1 200 300 (1 / 10)).toOption).getD
    (zeroDriftReport 0 "" 0 0)

/-- The drift report computed over c10storeB (case (b)). -/
def c10repB : DriftReport :=
  ((compare_to_baseline c10storeB 2 200 300 (1 / 10)).toOption).getD
    (zeroDriftReport 0 "" 0 0)

/-- Witness for C10 at concrete inputs: the zero-tool current window of
c10storeA yields the negated baseline fractions, and the zero-total
baseline of c10storeB yields exactly the current fraction for
list_tasks. -/
theorem C10_witness :
    (c10repA.tool_drift = (baselineRow1.tool_frequency.map Prod.fst).dedup.map (fun t =>
        (t, 0 - (((baselineRow1.tool_frequency.lookup t).getD 0 : ℚ) /
          (((if (baselineRow1.tool_frequency.map Prod.snd).sum == 0 then 1
             else (baselineRow1.tool_frequency.map Prod.snd).sum : ℕ)) : ℚ))))) ∧
    ((1 : ℚ) = ((((toolFrequency (toolsInWindow c10storeB 200 300)).lookup "list_tasks").getD 0 : ℚ) /
      (((if ((toolFrequency (toolsInWindow c10storeB 200 300)).map Prod.snd).sum == 0 then 1
         else ((toolFrequency (toolsInWindow c10storeB 200 300)).map Prod.snd).sum : ℕ)) : ℚ))) :=
  ⟨(C10_tool_drift_zero_total c10storeA 1 200 300 (1 / 10) baselineRow1 c10repA
      rfl rfl (by decide)).1 (by decide),
   (C10_tool_drift_zero_total c10storeB 2 200 300 (1 / 10) baselineRow2 c10repB
      rfl rfl (by decide)).2 (by decide) "list_tasks" 1 (by
        simp [c10repB, compare_to_baseline, get_baseline, c10storeB, decisionsInWindow,
          toolsInWindow, toolFrequency, intentDistribution, List.lookup, baselineRow2,
          baselineRow1, c10decision, c10toolRow, List.dedup, Except.toOption])⟩

/-- C9 bug evaluation: run_validation never merges any drift result.
For every store, fixture list, baseline id and environment, the returned
report has drift_detected false and empty drift_metrics, because the
expression datetime.timedelta(hours=24) at validation_service.py:185
raises AttributeError inside the try-block before compare_to_baseline
can be called (the module-level from datetime import datetime makes
datetime the class, which has no timedelta attribute), and the blanket
except swallows it. Yet over c10storeA the drift comparison itself,
invoked directly against the stored baseline, reports exceeded drift -
results the claim says would be merged into the report. Only the
non-fatality half of the claim holds (the run always returns a report). -/
theorem C9_drift_never_merged :
    (∀ (store : LogStore) (fixtures : List TestCase) (bid : Option Nat)
        (t0 t1 rid : Nat),
      (run_validation store fixtures bid t0 t1 rid).2.drift_detected = false ∧
      (run_validation store fixtures bid t0 t1 rid).2.drift_metrics = none) ∧
    ((compare_to_baseline c10storeA 1 200 300 (1 / 10)).map
        (fun r => r.drift_exceeded) = .ok true) ∧
    ((run_validation c10storeA [] (some 1) 100 110 9).2.drift_detected = false) ∧
    ((run_validation c10storeA [] (some 1) 100 110 9).2.drift_metrics = none) ∧
    (datetime_class_timedelta 24 = .error .attributeError) := by
  refine ⟨fun store fixtures bid t0 t1 rid => ?_, ?_, rfl, rfl, rfl⟩
  · cases bid with
    | none => exact ⟨rfl, rfl⟩
    | some b => exact ⟨rfl, rfl⟩
  · simp +decide [compare_to_baseline, get_baseline, c10storeA, storeWithBaseline,
      emptyStore, baselineRow1, decisionsInWindow, toolsInWindow, toolFrequency,
      intentDistribution, c10decision, List.lookup, List.dedup, List.pwFilter,
      driftStep, abs, Except.map]
    norm_num

end Obs
